import Mathlib

/-!
Shallow embedding of the Definite Protocol PyTeal contracts
(src/contracts/oracles/EnterprisePriceOracle.py,
src/contracts/protocol/RiskManager.py,
src/contracts/protocol/RebalanceEngine.py).

Conventions of the embedding:
- TEAL uint64 arithmetic panics (aborts the transaction) on overflow,
  underflow and division by zero; we model a panicking operation as
  returning none.  An operation of a contract is a function from the
  pre-state to Option post-state; none means the transaction was
  rejected by an Assert or a panicking opcode, and on the Algorand VM a
  rejected transaction leaves every global and local key untouched.
- Principals and addresses are modelled as Nat.
- Local (per-principal) state is an association list with most-recent
  binding first; kvPut prepends, matching overwrite semantics of
  app_local_put, and reading a principal that never opted in fails.
-/

namespace DefiniteProtocol

/-- 2^64, the exclusive bound of TEAL uint64 values. -/
def W64 : Nat := 18446744073709551616

/-- TEAL addition: panics (none) when the sum does not fit in 64 bits. -/
def avmAdd (a b : Nat) : Option Nat :=
  if a + b < W64 then some (a + b) else none

/-- TEAL multiplication: panics (none) when the product does not fit in 64 bits. -/
def avmMul (a b : Nat) : Option Nat :=
  if a * b < W64 then some (a * b) else none

/-- TEAL subtraction: panics (none) on underflow. -/
def avmSub (a b : Nat) : Option Nat :=
  if b ≤ a then some (a - b) else none

/-- TEAL type_enum value of a payment transaction. -/
def payType : Nat := 1

/-- One transaction of an atomic group, restricted to the fields the
contracts inspect (type_enum, receiver, amount). -/
structure GroupTxn where
  typeEnum : Nat
  receiver : Nat
  amount : Nat
  deriving DecidableEq, Repr

/-- Association-list read: first binding for the key wins. -/
def kvGet {β : Type} (m : List (Nat × β)) (k : Nat) : Option β :=
  match m with
  | [] => none
  | (k2, v) :: r => if k = k2 then some v else kvGet r k

/-- Association-list write: prepend, shadowing any older binding. -/
def kvPut {β : Type} (m : List (Nat × β)) (k : Nat) (v : β) : List (Nat × β) :=
  (k, v) :: m

/-! ## EnterprisePriceOracle (src/contracts/oracles/EnterprisePriceOracle.py) -/

/-- MAX_PRICE_DEVIATION, line 39: 5 percent in basis points. -/
def MAX_PRICE_DEVIATION : Nat := 500

/-- STALENESS_THRESHOLD, line 41: one hour in seconds. -/
def STALENESS_THRESHOLD : Nat := 3600

/-- Per-oracle local state: keys oracle_auth, oracle_rep, last_sub
(lines 52-54). -/
structure OracleLocal where
  oracle_auth : Nat
  oracle_rep : Nat
  last_sub : Nat
  deriving DecidableEq, Repr

/-- Oracle global state: keys current_price, last_update, oracle_count,
circuit_breaker, total_submissions (lines 45-49). -/
structure OracleGlobal where
  current_price : Nat
  last_update : Nat
  oracle_count : Nat
  circuit_breaker : Nat
  total_submissions : Nat
  deriving DecidableEq, Repr

/-- Full oracle application state: globals, per-principal locals, and the
creator address fixed at deployment. -/
structure OracleState where
  glob : OracleGlobal
  locals : List (Nat × OracleLocal)
  creator : Nat
  deriving DecidableEq, Repr

/-- on_creation (lines 67-74): seed price 250000, counters zeroed,
last_update set to the current ledger timestamp. -/
def oracleInit (creator now : Nat) : OracleState :=
  { glob := { current_price := 250000, last_update := now, oracle_count := 0,
              circuit_breaker := 0, total_submissions := 0 },
    locals := [], creator := creator }

/-- on_opt_in (lines 77-82): registration writes oracle_auth := 0,
oracle_rep := 100, last_sub := 0 for the sender; re-registration
overwrites. -/
def on_opt_in (s : OracleState) (sender : Nat) : Option OracleState :=
  some { s with locals :=
                  kvPut s.locals sender { oracle_auth := 0, oracle_rep := 100, last_sub := 0 } }

/-- authorize_oracle (lines 85-94): asserts the sender is the creator and
that at least two application args are present, then increments the
global oracle_count.  The routine reads no argument beyond the length
check and performs no local-state write: the target principal is never
looked up and no authorized flag is set. -/
def authorize_oracle (s : OracleState) (sender numArgs : Nat) : Option OracleState :=
  if sender = s.creator then
    if 2 ≤ numArgs then
      match avmAdd s.glob.oracle_count 1 with
      | some c => some { s with glob := { s.glob with oracle_count := c } }
      | none => none
    else none
  else none

/-- submit_price (lines 97-132): requires the sender's oracle_auth = 1 and
a clear circuit breaker, computes the absolute deviation against the
committed current_price, bounds it by current_price * 500 / 10000, and on
success writes the new price, refreshes last_update, and bumps
total_submissions and the sender's reputation. -/
def submit_price (s : OracleState) (sender newPrice now : Nat) : Option OracleState :=
  match kvGet s.locals sender with
  | none => none
  | some loc =>
    if loc.oracle_auth = 1 then
      if s.glob.circuit_breaker = 0 then
        let cp := s.glob.current_price
        let priceDiff := if newPrice > cp then newPrice - cp else cp - newPrice
        match avmMul cp MAX_PRICE_DEVIATION with
        | none => none
        | some m =>
          let maxDeviation := m / 10000
          if priceDiff ≤ maxDeviation then
            match avmAdd s.glob.total_submissions 1, avmAdd loc.oracle_rep 1 with
            | some subs, some rep =>
              let g2 := { s.glob with current_price := newPrice, last_update := now,
                                      total_submissions := subs }
              let loc2 := { loc with oracle_rep := rep, last_sub := now }
              some { s with glob := g2, locals := kvPut s.locals sender loc2 }
            | some _, none => none
            | none, _ => none
          else none
      else none
    else none

/-- Failure kinds of get_price; clockUnderflow is the TEAL panic of the
subtraction current_time - last_update. -/
inductive PriceErr where
  | clockUnderflow
  | stalePrice
  | circuitBreakerActive
  deriving DecidableEq, Repr

/-- get_price (lines 138-149): asserts now - last_update <= 3600 first,
then asserts the circuit breaker is clear, then returns current_price. -/
def get_price (g : OracleGlobal) (now : Nat) : Except PriceErr Nat :=
  match avmSub now g.last_update with
  | none => .error .clockUnderflow
  | some staleness =>
    if staleness ≤ STALENESS_THRESHOLD then
      if g.circuit_breaker = 0 then .ok g.current_price
      else .error .circuitBreakerActive
    else .error .stalePrice

/-- emergency_pause (lines 152-156): creator-only, trips the breaker. -/
def emergency_pause (s : OracleState) (sender : Nat) : Option OracleState :=
  if sender = s.creator then
    some { s with glob := { s.glob with circuit_breaker := 1 } }
  else none

/-- resume_operations (lines 159-163): creator-only, clears the breaker. -/
def resume_operations (s : OracleState) (sender : Nat) : Option OracleState :=
  if sender = s.creator then
    some { s with glob := { s.glob with circuit_breaker := 0 } }
  else none

/-- The application calls routed by the oracle approval program
(lines 166-176). -/
inductive OracleOp where
  | optIn (sender : Nat)
  | authorize (sender : Nat) (numArgs : Nat)
  | submit (sender : Nat) (newPrice : Nat)
  | getPrice
  | emergencyPause (sender : Nat)
  | resume (sender : Nat)
  deriving DecidableEq, Repr

/-- One routed call of the oracle contract at ledger time now. -/
def oracleStep (s : OracleState) (op : OracleOp) (now : Nat) : Option OracleState :=
  match op with
  | .optIn sender => on_opt_in s sender
  | .authorize sender n => authorize_oracle s sender n
  | .submit sender p => submit_price s sender p now
  | .getPrice =>
    match get_price s.glob now with
    | .ok _ => some s
    | .error _ => none
  | .emergencyPause sender => emergency_pause s sender
  | .resume sender => resume_operations s sender

/-- Observed state after a call: a rejected transaction leaves the
state as it was (AVM transactional semantics). -/
def oracleRun (s : OracleState) (op : OracleOp) (now : Nat) : OracleState :=
  (oracleStep s op now).getD s

/-- States reachable from deployment through routed calls. -/
inductive OracleReachable : OracleState → Prop where
  | init (creator now : Nat) : OracleReachable (oracleInit creator now)
  | step {s s2 : OracleState} (op : OracleOp) (now : Nat) :
      OracleReachable s → oracleStep s op now = some s2 → OracleReachable s2

/-- Invariant of the oracle local store: every registered principal has
oracle_auth = 0 and oracle_rep = 100. -/
def oracleLocalsInv (s : OracleState) : Prop :=
  ∀ a loc, kvGet s.locals a = some loc → loc.oracle_auth = 0 ∧ loc.oracle_rep = 100

/-- Reputation of a principal, defaulting to 0 when unregistered. -/
def repOf (s : OracleState) (a : Nat) : Nat :=
  match kvGet s.locals a with
  | some loc => loc.oracle_rep
  | none => 0

/-! ## RiskManager (src/contracts/protocol/RiskManager.py) -/

/-- LIQUIDATION_THRESHOLD, line 33: the literal 120, commented as a
120 percent collateral ratio. -/
def LIQUIDATION_THRESHOLD : Nat := 120

/-- LIQUIDATION_PENALTY, line 34: 5 percent in basis points. -/
def LIQUIDATION_PENALTY : Nat := 500

/-- The ratio expression shared by calculate_risk_score (lines 74-78) and
check_liquidation (lines 100-104): collateral * 10000 / balance when
balance > 0, else 10000.  The division only occurs under the
balance > 0 test, so the zero denominator is never divided by. -/
def collateralRatioBps (collateral balance : Nat) : Option Nat :=
  if balance > 0 then
    match avmMul collateral 10000 with
    | some t => some (t / balance)
    | none => none
  else some 10000

/-- check_liquidation (lines 93-108): recomputes the ratio and returns
whether collateral_ratio < LIQUIDATION_THRESHOLD; the price argument is
parsed but unused by the comparison. -/
def check_liquidation (collateral balance price : Nat) : Option Bool :=
  match collateralRatioBps collateral balance with
  | some r => some (decide (r < LIQUIDATION_THRESHOLD))
  | none => none

/-- Per-user local state of the risk manager: keys user_risk_score,
user_delta_exposure, user_liquidation_price (lines 45-47). -/
structure RiskLocal where
  user_risk_score : Nat
  user_delta_exposure : Nat
  user_liquidation_price : Nat
  deriving DecidableEq, Repr

/-- Global state of the risk manager (lines 39-42). -/
structure RiskGlobal where
  total_risk_exposure : Nat
  liquidation_pool : Nat
  system_health : Nat
  last_risk_update : Nat
  deriving DecidableEq, Repr

/-- Full risk-manager application state, with the creator address and the
application escrow address fixed at deployment. -/
structure RiskState where
  glob : RiskGlobal
  locals : List (Nat × RiskLocal)
  creator : Nat
  appAddr : Nat
  deriving DecidableEq, Repr

/-- on_creation (lines 53-59). -/
def riskInit (creator appAddr now : Nat) : RiskState :=
  { glob := { total_risk_exposure := 0, liquidation_pool := 0,
              system_health := 10000, last_risk_update := now },
    locals := [], creator := creator, appAddr := appAddr }

/-- calculate_risk_score (lines 67-85): computes the ratio and stores it
into both user_risk_score and user_liquidation_price of the sender; the
price argument is parsed but unused.  app_local_put requires the sender
to have opted in. -/
def calculate_risk_score (s : RiskState) (sender collateral balance price : Nat) :
    Option RiskState :=
  match kvGet s.locals sender with
  | none => none
  | some loc =>
    match collateralRatioBps collateral balance with
    | none => none
    | some r =>
      some { s with locals :=
                      kvPut s.locals sender
                        { loc with user_risk_score := r, user_liquidation_price := r } }

/-- execute_liquidation (lines 116-135): requires a group of at least two
transactions whose first is a payment to the application address, then
adds penalty / 2 to the liquidation pool where
penalty = amount * LIQUIDATION_PENALTY / 10000.  The amount of the
companion payment is never read: lines 123-125 check only type_enum and
receiver. -/
def execute_liquidation (s : RiskState) (group : List GroupTxn) (amount price : Nat) :
    Option RiskState :=
  if 2 ≤ group.length then
    match group with
    | [] => none
    | g0 :: _ =>
      if g0.typeEnum = payType then
        if g0.receiver = s.appAddr then
          match avmMul amount LIQUIDATION_PENALTY with
          | none => none
          | some p =>
            let penalty := p / 10000
            let fee := penalty / 2
            match avmAdd s.glob.liquidation_pool fee with
            | none => none
            | some pool =>
              some { s with glob := { s.glob with liquidation_pool := pool } }
        else none
      else none
  else none

/-- update_system_health (lines 140-147): creator-only, stores the new
score and refreshes last_risk_update. -/
def update_system_health (s : RiskState) (sender score now : Nat) : Option RiskState :=
  if sender = s.creator then
    some { s with glob := { s.glob with system_health := score, last_risk_update := now } }
  else none

/-- calculate_delta of the risk manager (lines 155-168): stores
balance * volatility / 10000 into the sender's user_delta_exposure. -/
def risk_calculate_delta (s : RiskState) (sender balance price volatility : Nat) :
    Option RiskState :=
  match kvGet s.locals sender with
  | none => none
  | some loc =>
    match avmMul balance volatility with
    | none => none
    | some d =>
      some { s with locals :=
                      kvPut s.locals sender { loc with user_delta_exposure := d / 10000 } }

/-- The calls routed by the risk-manager approval program (lines 171-184);
opt-in is approved with no writes, leaving every local key at 0. -/
inductive RiskOp where
  | optIn (sender : Nat)
  | calcRisk (sender collateral balance price : Nat)
  | checkLiq (collateral balance price : Nat)
  | execLiq (group : List GroupTxn) (amount price : Nat)
  | updateHealth (sender score : Nat)
  | calcDelta (sender balance price volatility : Nat)
  deriving DecidableEq, Repr

/-- One routed call of the risk manager at ledger time now. -/
def riskStep (s : RiskState) (op : RiskOp) (now : Nat) : Option RiskState :=
  match op with
  | .optIn sender =>
    some { s with locals :=
                    kvPut s.locals sender
                      { user_risk_score := 0, user_delta_exposure := 0,
                        user_liquidation_price := 0 } }
  | .calcRisk sender c b p => calculate_risk_score s sender c b p
  | .checkLiq c b p =>
    match check_liquidation c b p with
    | some _ => some s
    | none => none
  | .execLiq group amount price => execute_liquidation s group amount price
  | .updateHealth sender score => update_system_health s sender score now
  | .calcDelta sender b p v => risk_calculate_delta s sender b p v

/-- Observed state after a risk-manager call (rejection keeps the state). -/
def riskRun (s : RiskState) (op : RiskOp) (now : Nat) : RiskState :=
  (riskStep s op now).getD s

/-! ## RebalanceEngine (src/contracts/protocol/RebalanceEngine.py) -/

/-- REBALANCE_THRESHOLD, line 20. -/
def REBALANCE_THRESHOLD : Nat := 500

/-- MIN_REBALANCE_INTERVAL, line 21. -/
def MIN_REBALANCE_INTERVAL : Nat := 3600

/-- MAX_SLIPPAGE, line 22. -/
def MAX_SLIPPAGE : Nat := 300

/-- Global state of the rebalance engine (lines 26-31), with creator and
application escrow address fixed at deployment. -/
structure RebalanceState where
  last_rebalance : Nat
  current_delta : Nat
  target_delta : Nat
  funding_rate : Nat
  yield_pool : Nat
  rebalance_count : Nat
  creator : Nat
  appAddr : Nat
  deriving DecidableEq, Repr

/-- on_creation (lines 37-45). -/
def rebalanceInit (creator appAddr now : Nat) : RebalanceState :=
  { last_rebalance := now, current_delta := 0, target_delta := 0, funding_rate := 0,
    yield_pool := 0, rebalance_count := 0, creator := creator, appAddr := appAddr }

/-- calculate_delta of the rebalance engine (lines 56-78): stores
(portfolio_value - collateral_value) * 10000 / price_change when
price_change is nonzero, else 0; both scaled products are computed
before the branch. -/
def rebalance_calculate_delta (s : RebalanceState) (supply collateral price change : Nat) :
    Option RebalanceState :=
  match avmMul supply price, avmMul collateral price with
  | some pv0, some cv0 =>
    let pv := pv0 / 1000000
    let cv := cv0 / 1000000
    if change ≠ 0 then
      match avmSub pv cv with
      | none => none
      | some d =>
        match avmMul d 10000 with
        | none => none
        | some d2 => some { s with current_delta := d2 / change }
    else some { s with current_delta := 0 }
  | some _, none => none
  | none, _ => none

/-- check_rebalance_needed (lines 91-111): returns the conjunction of the
time condition and the delta-threshold condition; the subtraction
now - last_rebalance panics on underflow. -/
def check_rebalance_needed (s : RebalanceState) (now : Nat) : Option Bool :=
  match avmSub now s.last_rebalance with
  | none => none
  | some t =>
    let timeOk := decide (MIN_REBALANCE_INTERVAL ≤ t)
    let dd := if s.current_delta > s.target_delta then s.current_delta - s.target_delta
              else s.target_delta - s.current_delta
    some (timeOk && decide (REBALANCE_THRESHOLD < dd))

/-- execute_rebalance (lines 120-139): requires a group of at least two
transactions and slippage <= MAX_SLIPPAGE, then refreshes last_rebalance
and increments rebalance_count; amount and direction are parsed but not
otherwise used. -/
def execute_rebalance (s : RebalanceState) (group : List GroupTxn)
    (amount direction slippage now : Nat) : Option RebalanceState :=
  if 2 ≤ group.length then
    if slippage ≤ MAX_SLIPPAGE then
      match avmAdd s.rebalance_count 1 with
      | none => none
      | some c => some { s with last_rebalance := now, rebalance_count := c }
    else none
  else none

/-- update_funding_rate (lines 144-154): requires rate <= 1000000 and
stores it. -/
def update_funding_rate (s : RebalanceState) (rate : Nat) : Option RebalanceState :=
  if rate ≤ 1000000 then some { s with funding_rate := rate } else none

/-- distribute_yield (lines 160-176): requires a group of at least two
transactions whose first is a payment to the application address of
exactly the declared amount, then adds the amount to yield_pool. -/
def distribute_yield (s : RebalanceState) (group : List GroupTxn) (amount : Nat) :
    Option RebalanceState :=
  if 2 ≤ group.length then
    match group with
    | [] => none
    | g0 :: _ =>
      if g0.typeEnum = payType then
        if g0.receiver = s.appAddr then
          if g0.amount = amount then
            match avmAdd s.yield_pool amount with
            | none => none
            | some p => some { s with yield_pool := p }
          else none
        else none
      else none
  else none

/-- calculate_hedge_ratio (lines 185-200): computes
correlation * volatility / 10000 capped at 10000; the result is held in
a scratch variable and the portfolio-value argument is unused. -/
def calculate_hedge (portfolioValue volatility correlation : Nat) : Option Nat :=
  match avmMul correlation volatility with
  | none => none
  | some h =>
    let r := h / 10000
    some (if r > 10000 then 10000 else r)

/-- set_target_delta (lines 205-211): creator-only store. -/
def set_target_delta (s : RebalanceState) (sender value : Nat) : Option RebalanceState :=
  if sender = s.creator then some { s with target_delta := value } else none

/-- The calls routed by the rebalance-engine approval program
(lines 214-227). -/
inductive RebalanceOp where
  | calcDelta (supply collateral price change : Nat)
  | checkRebalance
  | execRebalance (group : List GroupTxn) (amount direction slippage : Nat)
  | updateFunding (rate : Nat)
  | distYield (group : List GroupTxn) (amount : Nat)
  | calcHedge (portfolioValue volatility correlation : Nat)
  | setTarget (sender value : Nat)
  deriving DecidableEq, Repr

/-- One routed call of the rebalance engine at ledger time now. -/
def rebalanceStep (s : RebalanceState) (op : RebalanceOp) (now : Nat) :
    Option RebalanceState :=
  match op with
  | .calcDelta a b c d => rebalance_calculate_delta s a b c d
  | .checkRebalance =>
    match check_rebalance_needed s now with
    | some _ => some s
    | none => none
  | .execRebalance g a d sl => execute_rebalance s g a d sl now
  | .updateFunding r => update_funding_rate s r
  | .distYield g a => distribute_yield s g a
  | .calcHedge a b c =>
    match calculate_hedge a b c with
    | some _ => some s
    | none => none
  | .setTarget sender v => set_target_delta s sender v

/-- Observed state after a rebalance-engine call (rejection keeps the
state). -/
def rebalanceRun (s : RebalanceState) (op : RebalanceOp) (now : Nat) : RebalanceState :=
  (rebalanceStep s op now).getD s

/-! ## Concrete states and transactions used to exercise the model -/

/-- An oracle state with principal 0 carrying oracle_auth = 1, as the
submit-price gate demands; no reachable state has this flag set, so this
state is crafted to exercise the accepting branch of submit_price. -/
def oracleStateA : OracleState :=
  { glob := { current_price := 250000, last_update := 0, oracle_count := 0,
              circuit_breaker := 0, total_submissions := 0 },
    locals := [(0, { oracle_auth := 1, oracle_rep := 100, last_sub := 0 })],
    creator := 0 }

/-- The committed result of submit_price on oracleStateA with price
260000 at time 7. -/
def oracleStateA2 : OracleState :=
  { glob := { current_price := 260000, last_update := 7, oracle_count := 0,
              circuit_breaker := 0, total_submissions := 1 },
    locals := [(0, { oracle_auth := 1, oracle_rep := 101, last_sub := 7 }),
               (0, { oracle_auth := 1, oracle_rep := 100, last_sub := 0 })],
    creator := 0 }

/-- Deployment state with creator 3 at time 5 after principal 9 opts in. -/
def oracleState9 : OracleState :=
  { glob := { current_price := 250000, last_update := 5, oracle_count := 0,
              circuit_breaker := 0, total_submissions := 0 },
    locals := [(9, { oracle_auth := 0, oracle_rep := 100, last_sub := 0 })],
    creator := 3 }

/-- oracleState9 after the creator calls authorize: only the global
oracle_count moves; the locals of principal 9 are untouched. -/
def oracleState9auth : OracleState :=
  { glob := { current_price := 250000, last_update := 5, oracle_count := 1,
              circuit_breaker := 0, total_submissions := 0 },
    locals := [(9, { oracle_auth := 0, oracle_rep := 100, last_sub := 0 })],
    creator := 3 }

/-- A fresh risk-manager state in which principal 9 has opted in. -/
def riskStateA : RiskState :=
  { glob := { total_risk_exposure := 0, liquidation_pool := 0, system_health := 10000,
              last_risk_update := 0 },
    locals := [(9, { user_risk_score := 0, user_delta_exposure := 0,
                     user_liquidation_price := 0 })],
    creator := 0, appAddr := 7 }

/-- riskStateA after calculate_risk_score with collateral 100 and
balance 200: risk_score 5000 stored into both local keys. -/
def riskStateA5000 : RiskState :=
  { glob := { total_risk_exposure := 0, liquidation_pool := 0, system_health := 10000,
              last_risk_update := 0 },
    locals := [(9, { user_risk_score := 5000, user_delta_exposure := 0,
                     user_liquidation_price := 5000 }),
               (9, { user_risk_score := 0, user_delta_exposure := 0,
                     user_liquidation_price := 0 })],
    creator := 0, appAddr := 7 }

/-- A fresh risk-manager state with no opted-in principals. -/
def riskStateB : RiskState :=
  { glob := { total_risk_exposure := 0, liquidation_pool := 0, system_health := 10000,
              last_risk_update := 0 },
    locals := [], creator := 0, appAddr := 7 }

/-- A fresh rebalance-engine state. -/
def rebStateA : RebalanceState :=
  { last_rebalance := 0, current_delta := 0, target_delta := 0, funding_rate := 0,
    yield_pool := 0, rebalance_count := 0, creator := 0, appAddr := 7 }

/-- rebStateA after a committed execute_rebalance at time 4000. -/
def rebStateA1 : RebalanceState :=
  { last_rebalance := 4000, current_delta := 0, target_delta := 0, funding_rate := 0,
    yield_pool := 0, rebalance_count := 1, creator := 0, appAddr := 7 }

/-- A payment of 999 microalgos to address 7. -/
def gtxnPay999 : GroupTxn := { typeEnum := payType, receiver := 7, amount := 999 }

/-- An application-call group transaction (type_enum 6). -/
def gtxnAppCall : GroupTxn := { typeEnum := 6, receiver := 0, amount := 0 }

/-! ## Helper lemmas -/

theorem avmMul_eq_some {a b m : Nat} (h : avmMul a b = some m) : m = a * b := by
  unfold avmMul at h
  split at h
  · exact (Option.some.inj h).symm
  · exact Option.noConfusion h

theorem avmAdd_eq_some {a b m : Nat} (h : avmAdd a b = some m) : m = a + b := by
  unfold avmAdd at h
  split at h
  · exact (Option.some.inj h).symm
  · exact Option.noConfusion h

theorem avmSub_eq_some {a b m : Nat} (h : avmSub a b = some m) : m = a - b ∧ b ≤ a := by
  unfold avmSub at h
  split at h
  · exact ⟨(Option.some.inj h).symm, by assumption⟩
  · exact Option.noConfusion h

theorem kvGet_kvPut_self {β : Type} (m : List (Nat × β)) (k : Nat) (v : β) :
    kvGet (kvPut m k v) k = some v := by
  simp [kvGet, kvPut]

theorem kvGet_kvPut_ne {β : Type} (m : List (Nat × β)) (k a : Nat) (v : β) (h : a ≠ k) :
    kvGet (kvPut m k v) a = kvGet m a := by
  simp [kvGet, kvPut, h]

/-- In any state satisfying the locals invariant, submit_price is rejected
at its very first assertion: the sender's oracle_auth is 0, never 1. -/
theorem submit_price_none_of_inv {s : OracleState} (hinv : oracleLocalsInv s)
    (sender newPrice now : Nat) : submit_price s sender newPrice now = none := by
  unfold submit_price
  cases hk : kvGet s.locals sender with
  | none => rfl
  | some loc =>
    have h0 := (hinv sender loc hk).1
    simp [h0]

/-- A committed authorize call changes neither the locals nor
total_submissions: it only moves oracle_count. -/
theorem authorize_shape {s s2 : OracleState} {sender n : Nat}
    (h : authorize_oracle s sender n = some s2) :
    s2.locals = s.locals ∧ s2.glob.total_submissions = s.glob.total_submissions := by
  unfold authorize_oracle at h
  split at h
  · split at h
    · split at h
      · have h2 := Option.some.inj h
        subst h2
        exact ⟨rfl, rfl⟩
      · exact Option.noConfusion h
    · exact Option.noConfusion h
  · exact Option.noConfusion h

/-- Every state reachable from deployment satisfies the locals invariant:
registration writes oracle_auth 0 and oracle_rep 100, authorize and the
breaker toggles touch no local key, and submit_price never commits. -/
theorem oracleInv_of_reachable {s : OracleState} (h : OracleReachable s) :
    oracleLocalsInv s := by
  induction h with
  | init creator now =>
    intro a loc hl
    simp [oracleInit, kvGet] at hl
  | step op now hr hstep ih =>
    cases op with
    | optIn sender =>
      simp only [oracleStep, on_opt_in, Option.some.injEq] at hstep
      subst hstep
      intro a loc hl
      by_cases ha : a = sender
      · subst ha
        rw [kvGet_kvPut_self] at hl
        have h2 := Option.some.inj hl
        subst h2
        exact ⟨rfl, rfl⟩
      · rw [kvGet_kvPut_ne _ _ _ _ ha] at hl
        exact ih a loc hl
    | authorize sender n =>
      simp only [oracleStep] at hstep
      have hl := (authorize_shape hstep).1
      intro a loc h2
      rw [hl] at h2
      exact ih a loc h2
    | submit sender newPrice =>
      simp only [oracleStep] at hstep
      rw [submit_price_none_of_inv ih sender newPrice now] at hstep
      exact Option.noConfusion hstep
    | getPrice =>
      simp only [oracleStep] at hstep
      split at hstep
      · have h2 := Option.some.inj hstep
        subst h2
        exact ih
      · exact Option.noConfusion hstep
    | emergencyPause sender =>
      simp only [oracleStep, emergency_pause] at hstep
      split at hstep
      · have h2 := Option.some.inj hstep
        subst h2
        exact ih
      · exact Option.noConfusion hstep
    | resume sender =>
      simp only [oracleStep, resume_operations] at hstep
      split at hstep
      · have h2 := Option.some.inj hstep
        subst h2
        exact ih
      · exact Option.noConfusion hstep

/-! ## Claims -/

/-- C1: every submit_price call that commits satisfies
|newPrice - price_before| <= price_before * 500 / 10000 and installs the
new price; every call whose deviation exceeds this bound is rejected and
the observed state, in particular current_price, is unchanged. -/
theorem C1_submit_price_deviation_bound :
    (∀ (s : OracleState) (sender newPrice now : Nat) (s2 : OracleState),
        oracleStep s (.submit sender newPrice) now = some s2 →
        (if newPrice > s.glob.current_price then newPrice - s.glob.current_price
         else s.glob.current_price - newPrice) ≤ s.glob.current_price * 500 / 10000 ∧
          s2.glob.current_price = newPrice) ∧
    (∀ (s : OracleState) (sender newPrice now : Nat),
        s.glob.current_price * 500 / 10000 <
            (if newPrice > s.glob.current_price then newPrice - s.glob.current_price
             else s.glob.current_price - newPrice) →
        oracleStep s (.submit sender newPrice) now = none ∧
          oracleRun s (.submit sender newPrice) now = s) := by
  constructor
  · intro s sender newPrice now s2 h
    simp only [oracleStep, submit_price, MAX_PRICE_DEVIATION] at h
    split at h
    · exact Option.noConfusion h
    · split at h
      · split at h
        · split at h
          next m hm =>
            exact Option.noConfusion h
          next m hm =>
            have hme := avmMul_eq_some hm
            subst hme
            by_cases hd : (if newPrice > s.glob.current_price
                           then newPrice - s.glob.current_price
                           else s.glob.current_price - newPrice) ≤
                s.glob.current_price * 500 / 10000
            · rw [if_pos hd] at h
              split at h
              next subs rep hsubs hrep =>
                have h2 := Option.some.inj h
                subst h2
                exact ⟨hd, rfl⟩
              next subs hsubs hrep => exact Option.noConfusion h
              next hadd => exact Option.noConfusion h
            · rw [if_neg hd] at h
              exact Option.noConfusion h
        · exact Option.noConfusion h
      · exact Option.noConfusion h
  · intro s sender newPrice now hgt
    have hnone : oracleStep s (.submit sender newPrice) now = none := by
      simp only [oracleStep, submit_price, MAX_PRICE_DEVIATION]
      split
      · rfl
      · split
        · split
          · split
            next m hm => rfl
            next m hm =>
              have hme := avmMul_eq_some hm
              subst hme
              rw [if_neg (not_le.mpr hgt)]
          · rfl
        · rfl
    exact ⟨hnone, by simp [oracleRun, hnone]⟩

/-- C1 witness: on a crafted state with an authorized oracle at seed price
250000, submitting 260000 (deviation 10000 <= 12500) commits and installs
260000, while submitting 300000 (deviation 50000 > 12500) is rejected
with the state unchanged. -/
theorem C1_submit_price_deviation_bound_witness :
    ((if 260000 > oracleStateA.glob.current_price
      then 260000 - oracleStateA.glob.current_price
      else oracleStateA.glob.current_price - 260000) ≤
        oracleStateA.glob.current_price * 500 / 10000 ∧
      oracleStateA2.glob.current_price = 260000) ∧
    (oracleStep oracleStateA (.submit 0 300000) 8 = none ∧
      oracleRun oracleStateA (.submit 0 300000) 8 = oracleStateA) :=
  ⟨C1_submit_price_deviation_bound.1 oracleStateA 0 260000 7 oracleStateA2 (by decide),
   C1_submit_price_deviation_bound.2 oracleStateA 0 300000 8 (by decide)⟩

/-- C2: the claim that authorize marks the target oracle authorized and
requires prior registration fails on the code.  On a state where
principal 9 is registered, a creator-sent authorize call commits yet
leaves the locals of principal 9 (and everyone else) untouched with
oracle_auth still 0, only incrementing the global oracle_count; the same
call also commits on a deployment state where nobody is registered, so
registration of the target is not required.  Only the controller-only
part holds: a non-creator caller is rejected. -/
theorem C2_authorize_does_not_authorize :
    oracleStep oracleState9 (.authorize 3 2) 6 = some oracleState9auth ∧
    oracleState9auth.locals = oracleState9.locals ∧
    kvGet oracleState9auth.locals 9 =
        some { oracle_auth := 0, oracle_rep := 100, last_sub := 0 } ∧
    oracleState9auth.glob.oracle_count = oracleState9.glob.oracle_count + 1 ∧
    oracleStep (oracleInit 3 5) (.authorize 3 2) 6 =
        some { oracleInit 3 5 with
                 glob := { (oracleInit 3 5).glob with oracle_count := 1 } } ∧
    oracleStep oracleState9 (.authorize 5 2) 6 = none := by
  decide

/-- C3: in every state reachable from deployment, every registered oracle
has oracle_auth = 0 (opt-in writes 0 and authorize performs no local
write), so the authorization precondition of submit_price is never
satisfiable and submit_price never commits. -/
theorem C3_submit_price_never_commits :
    ∀ (s : OracleState), OracleReachable s →
      (∀ a loc, kvGet s.locals a = some loc → loc.oracle_auth = 0) ∧
      (∀ sender newPrice now, oracleStep s (.submit sender newPrice) now = none) := by
  intro s hs
  have hinv := oracleInv_of_reachable hs
  refine ⟨fun a loc hl => (hinv a loc hl).1, fun sender newPrice now => ?_⟩
  simp only [oracleStep]
  exact submit_price_none_of_inv hinv sender newPrice now

/-- C3 witness: the state reached by deploying with creator 3 at time 5
and letting principal 9 opt in is reachable, principal 9 is registered
with oracle_auth 0, and a submit_price call by principal 9 is
rejected. -/
theorem C3_submit_price_never_commits_witness :
    (({ oracle_auth := 0, oracle_rep := 100, last_sub := 0 } : OracleLocal)).oracle_auth = 0 ∧
    oracleStep oracleState9 (.submit 9 250000) 6 = none := by
  have hr : OracleReachable oracleState9 :=
    OracleReachable.step (.optIn 9) 6 (OracleReachable.init 3 5) (by decide)
  obtain ⟨h1, h2⟩ := C3_submit_price_never_commits oracleState9 hr
  exact ⟨h1 9 { oracle_auth := 0, oracle_rep := 100, last_sub := 0 } (by decide),
         h2 9 250000 6⟩

/-- C4: for collateral 100 and balance 200 the stored risk score is 5000
as the claim says, but check_liquidation returns false, not true: the
code compares the basis-point ratio 5000 against the threshold literal
120, and 5000 < 120 fails, so a 50 percent collateralized position is
not flagged for liquidation. -/
theorem C4_scenario_b_units :
    collateralRatioBps 100 200 = some 5000 ∧
    (∀ price : Nat, calculate_risk_score riskStateA 9 100 200 price = some riskStateA5000) ∧
    kvGet riskStateA5000.locals 9 =
        some { user_risk_score := 5000, user_delta_exposure := 0,
               user_liquidation_price := 5000 } ∧
    (∀ price : Nat, check_liquidation 100 200 price = some false) :=
  ⟨by decide, fun price => rfl, by decide, fun price => rfl⟩

/-- C5: the claim that an amount mismatch in the companion payment makes
execute_liquidation fail is refuted by the code: with a group whose
first transaction pays 999 to the engine address, execute_liquidation
with amount argument 1000 commits and credits
1000 * 500 / 10000 / 2 = 25 to the liquidation pool, because the code
never reads the companion payment's amount. -/
theorem C5_liquidation_amount_not_checked :
    ∀ price : Nat,
      execute_liquidation riskStateB [gtxnPay999, gtxnAppCall] 1000 price =
        some { riskStateB with glob := { riskStateB.glob with liquidation_pool := 25 } } :=
  fun price => rfl

/-- C6: a rejected operation of any of the three contracts leaves the
observed state exactly as it was; concretely, distribute_yield with a
companion payment whose amount differs from the declared amount is
rejected (Scenario C: payment 999 against amount 1000), and
execute_rebalance with slippage above MAX_SLIPPAGE is rejected
(Scenario D: slippage 301 against the 300 cap). -/
theorem C6_transactional_failure_rollback :
    (∀ (s : OracleState) (op : OracleOp) (now : Nat),
        oracleStep s op now = none → oracleRun s op now = s) ∧
    (∀ (s : RiskState) (op : RiskOp) (now : Nat),
        riskStep s op now = none → riskRun s op now = s) ∧
    (∀ (s : RebalanceState) (op : RebalanceOp) (now : Nat),
        rebalanceStep s op now = none → rebalanceRun s op now = s) ∧
    (∀ (s : RebalanceState) (g0 : GroupTxn) (rest : List GroupTxn) (amount : Nat),
        g0.amount ≠ amount → distribute_yield s (g0 :: rest) amount = none) ∧
    (∀ (s : RebalanceState) (group : List GroupTxn) (amount direction slippage now : Nat),
        MAX_SLIPPAGE < slippage →
          execute_rebalance s group amount direction slippage now = none) := by
  refine ⟨?_, ?_, ?_, ?_, ?_⟩
  · intro s op now h
    simp [oracleRun, h]
  · intro s op now h
    simp [riskRun, h]
  · intro s op now h
    simp [rebalanceRun, h]
  · intro s g0 rest amount hne
    simp [distribute_yield, if_neg hne, ite_self]
  · intro s group amount direction slippage now hsl
    simp only [execute_rebalance]
    split
    · rw [if_neg (not_le.mpr hsl)]
    · rfl

/-- C6 witness: concrete rejected calls of each contract leave the state
unchanged; Scenario C and Scenario D evaluated on a fresh engine
state. -/
theorem C6_transactional_failure_rollback_witness :
    oracleRun (oracleInit 0 0) (.submit 4 250000) 1 = oracleInit 0 0 ∧
    riskRun riskStateB (.updateHealth 5 9000) 1 = riskStateB ∧
    rebalanceRun rebStateA (.updateFunding 2000000) 1 = rebStateA ∧
    distribute_yield rebStateA [gtxnPay999, gtxnAppCall] 1000 = none ∧
    execute_rebalance rebStateA [gtxnPay999, gtxnAppCall] 500 1 301 9999 = none :=
  ⟨C6_transactional_failure_rollback.1 (oracleInit 0 0) (.submit 4 250000) 1 (by decide),
   C6_transactional_failure_rollback.2.1 riskStateB (.updateHealth 5 9000) 1 (by decide),
   C6_transactional_failure_rollback.2.2.1 rebStateA (.updateFunding 2000000) 1 (by decide),
   C6_transactional_failure_rollback.2.2.2.1 rebStateA gtxnPay999 [gtxnAppCall] 1000
     (by decide),
   C6_transactional_failure_rollback.2.2.2.2 rebStateA [gtxnPay999, gtxnAppCall] 500 1 301
     9999 (by decide)⟩

/-- C7: provided the ledger clock has not run backwards past last_update,
get_price fails with StalePrice exactly when now - last_update exceeds
STALENESS_THRESHOLD, whatever the circuit breaker holds (the staleness
assertion comes first); and when the price is fresh and the breaker is
clear it returns current_price. -/
theorem C7_get_price_staleness :
    ∀ (g : OracleGlobal) (now : Nat), g.last_update ≤ now →
      ((get_price g now = .error .stalePrice) ↔
        STALENESS_THRESHOLD < now - g.last_update) ∧
      (now - g.last_update ≤ STALENESS_THRESHOLD → g.circuit_breaker = 0 →
        get_price g now = .ok g.current_price) := by
  intro g now hle
  have hgp : get_price g now =
      (if now - g.last_update ≤ STALENESS_THRESHOLD then
        (if g.circuit_breaker = 0 then Except.ok g.current_price
         else Except.error PriceErr.circuitBreakerActive)
       else Except.error PriceErr.stalePrice) := by
    unfold get_price avmSub
    rw [if_pos hle]
  refine ⟨⟨?_, ?_⟩, ?_⟩
  · intro h
    rw [hgp] at h
    by_cases hst : now - g.last_update ≤ STALENESS_THRESHOLD
    · rw [if_pos hst] at h
      by_cases hcb : g.circuit_breaker = 0
      · rw [if_pos hcb] at h
        exact absurd h (by simp)
      · rw [if_neg hcb] at h
        exact absurd h (by simp)
    · exact not_le.mp hst
  · intro h
    rw [hgp, if_neg (not_le.mpr h)]
  · intro hst hcb
    rw [hgp, if_pos hst, if_pos hcb]

/-- C7 witness: with last_update 1000 and a tripped breaker, reading at
time 5000 (staleness 4000) fails with StalePrice in spite of the
breaker; with a clear breaker, reading at time 2000 (staleness 1000)
returns the current price 260000. -/
theorem C7_get_price_staleness_witness :
    (get_price { current_price := 260000, last_update := 1000, oracle_count := 1,
                 circuit_breaker := 1, total_submissions := 3 } 5000 =
        .error .stalePrice ↔ STALENESS_THRESHOLD < 5000 - 1000) ∧
    get_price { current_price := 260000, last_update := 1000, oracle_count := 1,
                circuit_breaker := 0, total_submissions := 3 } 2000 = .ok 260000 :=
  ⟨(C7_get_price_staleness
      { current_price := 260000, last_update := 1000, oracle_count := 1,
        circuit_breaker := 1, total_submissions := 3 } 5000 (by decide)).1,
   (C7_get_price_staleness
      { current_price := 260000, last_update := 1000, oracle_count := 1,
        circuit_breaker := 0, total_submissions := 3 } 2000 (by decide)).2
     (by decide) rfl⟩

/-- C8: for every collateral and price, a zero balance yields the ratio
10000 from the guarded branch (no division happens), so
calculate_risk_score stores risk_score 10000 and check_liquidation
returns false. -/
theorem C8_zero_balance_guard :
    ∀ collateral price : Nat,
      collateralRatioBps collateral 0 = some 10000 ∧
      check_liquidation collateral 0 price = some false ∧
      (∀ (s : RiskState) (loc : RiskLocal), kvGet s.locals 9 = some loc →
          calculate_risk_score s 9 collateral 0 price =
            some { s with locals :=
                            kvPut s.locals 9
                              { loc with user_risk_score := 10000,
                                         user_liquidation_price := 10000 } }) := by
  intro collateral price
  refine ⟨rfl, rfl, ?_⟩
  intro s loc hk
  unfold calculate_risk_score
  rw [hk]
  rfl

/-- C8 witness: evaluated at collateral 55, price 3 and a state where
principal 9 is opted in with zeroed keys. -/
theorem C8_zero_balance_guard_witness :
    collateralRatioBps 55 0 = some 10000 ∧
    check_liquidation 55 0 3 = some false ∧
    calculate_risk_score riskStateA 9 55 0 3 =
      some { riskStateA with
               locals := kvPut riskStateA.locals 9
                 { user_risk_score := 10000, user_delta_exposure := 0,
                   user_liquidation_price := 10000 } } := by
  obtain ⟨h1, h2, h3⟩ := C8_zero_balance_guard 55 3
  exact ⟨h1, h2,
         h3 riskStateA
           { user_risk_score := 0, user_delta_exposure := 0, user_liquidation_price := 0 }
           (by decide)⟩

/-- C9: across committed operations, total_submissions and every
principal's reputation are non-decreasing in every reachable oracle
state (registration and re-registration included, since every reachable
registered oracle carries reputation exactly 100), and rebalance_count
is non-decreasing across every committed rebalance-engine operation on
any state. -/
theorem C9_counters_monotone :
    (∀ (s : OracleState), OracleReachable s →
        ∀ (op : OracleOp) (now : Nat) (s2 : OracleState),
          oracleStep s op now = some s2 →
          s.glob.total_submissions ≤ s2.glob.total_submissions ∧
            ∀ a, repOf s a ≤ repOf s2 a) ∧
    (∀ (s : RebalanceState) (op : RebalanceOp) (now : Nat) (s2 : RebalanceState),
        rebalanceStep s op now = some s2 → s.rebalance_count ≤ s2.rebalance_count) := by
  constructor
  · intro s hs op now s2 hstep
    have hinv := oracleInv_of_reachable hs
    cases op with
    | optIn sender =>
      simp only [oracleStep, on_opt_in, Option.some.injEq] at hstep
      subst hstep
      refine ⟨Nat.le_refl _, ?_⟩
      intro a
      by_cases ha : a = sender
      · subst ha
        unfold repOf
        rw [kvGet_kvPut_self]
        cases hk : kvGet s.locals a with
        | none => exact Nat.zero_le _
        | some loc => exact Nat.le_of_eq (hinv a loc hk).2
      · unfold repOf
        rw [kvGet_kvPut_ne _ _ _ _ ha]
    | authorize sender n =>
      simp only [oracleStep] at hstep
      obtain ⟨hl, hsub⟩ := authorize_shape hstep
      refine ⟨Nat.le_of_eq hsub.symm, ?_⟩
      intro a
      unfold repOf
      rw [hl]
    | submit sender newPrice =>
      simp only [oracleStep] at hstep
      rw [submit_price_none_of_inv hinv sender newPrice now] at hstep
      exact Option.noConfusion hstep
    | getPrice =>
      simp only [oracleStep] at hstep
      split at hstep
      · have h2 := Option.some.inj hstep
        subst h2
        exact ⟨Nat.le_refl _, fun a => Nat.le_refl _⟩
      · exact Option.noConfusion hstep
    | emergencyPause sender =>
      simp only [oracleStep, emergency_pause] at hstep
      split at hstep
      · have h2 := Option.some.inj hstep
        subst h2
        exact ⟨Nat.le_refl _, fun a => Nat.le_refl _⟩
      · exact Option.noConfusion hstep
    | resume sender =>
      simp only [oracleStep, resume_operations] at hstep
      split at hstep
      · have h2 := Option.some.inj hstep
        subst h2
        exact ⟨Nat.le_refl _, fun a => Nat.le_refl _⟩
      · exact Option.noConfusion hstep
  · intro s op now s2 h
    cases op with
    | calcDelta a b c d =>
      simp only [rebalanceStep, rebalance_calculate_delta] at h
      repeat' split at h
      all_goals try exact Option.noConfusion h
      all_goals
        have h2 := Option.some.inj h
      all_goals subst h2
      all_goals exact Nat.le_refl _
    | checkRebalance =>
      simp only [rebalanceStep] at h
      split at h
      · have h2 := Option.some.inj h
        subst h2
        exact Nat.le_refl _
      · exact Option.noConfusion h
    | execRebalance g a d sl =>
      simp only [rebalanceStep, execute_rebalance] at h
      split at h
      · split at h
        · split at h
          next hc => exact Option.noConfusion h
          next c hc =>
            have h2 := Option.some.inj h
            subst h2
            have hce := avmAdd_eq_some hc
            subst hce
            exact Nat.le_succ _
        · exact Option.noConfusion h
      · exact Option.noConfusion h
    | updateFunding r =>
      simp only [rebalanceStep, update_funding_rate] at h
      split at h
      · have h2 := Option.some.inj h
        subst h2
        exact Nat.le_refl _
      · exact Option.noConfusion h
    | distYield g a =>
      simp only [rebalanceStep, distribute_yield] at h
      repeat' split at h
      all_goals try exact Option.noConfusion h
      all_goals
        have h2 := Option.some.inj h
      all_goals subst h2
      all_goals exact Nat.le_refl _
    | calcHedge a b c =>
      simp only [rebalanceStep] at h
      split at h
      · have h2 := Option.some.inj h
        subst h2
        exact Nat.le_refl _
      · exact Option.noConfusion h
    | setTarget sender v =>
      simp only [rebalanceStep, set_target_delta] at h
      split at h
      · have h2 := Option.some.inj h
        subst h2
        exact Nat.le_refl _
      · exact Option.noConfusion h

/-- C9 witness: a committed opt-in on the freshly deployed oracle keeps
total_submissions and principal 9's reputation non-decreasing, and a
committed execute_rebalance takes rebalance_count from 0 to 1. -/
theorem C9_counters_monotone_witness :
    ((oracleInit 3 5).glob.total_submissions ≤ oracleState9.glob.total_submissions ∧
      repOf (oracleInit 3 5) 9 ≤ repOf oracleState9 9) ∧
    rebStateA.rebalance_count ≤ rebStateA1.rebalance_count := by
  have h1 := C9_counters_monotone.1 (oracleInit 3 5) (OracleReachable.init 3 5)
    (.optIn 9) 6 oracleState9 (by decide)
  have h2 := C9_counters_monotone.2 rebStateA
    (.execRebalance [gtxnPay999, gtxnAppCall] 500 1 100) 4000 rebStateA1 (by decide)
  exact ⟨⟨h1.1, h1.2 9⟩, h2⟩

/-- C10: whenever calculate_hedge_ratio produces a value, that value is
correlation * volatility / 10000 clamped to 10000, hence never above
10000; inputs driving the raw ratio past 10000 are truncated to 10000
rather than rejected. -/
theorem C10_hedge_clamp :
    ∀ (portfolioValue volatility correlation r : Nat),
      calculate_hedge portfolioValue volatility correlation = some r →
      r = min (correlation * volatility / 10000) 10000 ∧ r ≤ 10000 := by
  intro portfolioValue volatility correlation r h
  unfold calculate_hedge at h
  split at h
  · exact Option.noConfusion h
  next m hm =>
    have hme := avmMul_eq_some hm
    subst hme
    have h2 := Option.some.inj h
    subst h2
    refine ⟨?_, ?_⟩
    · split
      next hx => omega
      next hx => omega
    · split
      next hx => omega
      next hx => omega

/-- C10 witness: volatility 20000 with correlation 9000 drives the raw
ratio to 18000, and the produced value is the 10000 clamp. -/
theorem C10_hedge_clamp_witness :
    (10000 : Nat) = min (9000 * 20000 / 10000) 10000 ∧ (10000 : Nat) ≤ 10000 :=
  C10_hedge_clamp 5 20000 9000 10000 (by decide)

end DefiniteProtocol
